import Mathlib

/-!
Verification of the x11stream repository core: the CP2112 I2C bus adapter
(src/cp2112_i2c_bus.py) and the OLED status loop (src/oled_display.py).

The bus adapter is embedded as pure functions over a device model that
records the trace of raw bridge-handle calls (write/read transfers), so
that claims about which transfers occur are statements about that trace.
The status loop is embedded as a state machine driven by a list of
per-iteration environment events.
-/

namespace X11Stream

/-- A raw transfer issued on the CP2112 bridge handle: either a write of a
payload to an address, or a read of a given length from an address. -/
inductive Transfer
  | wr (address : Nat) (payload : List Nat)
  | rd (address : Nat) (length : Nat)
  deriving DecidableEq, Repr

/-- Model of the CP2112Device handle wrapped by CP2112I2CBus: `read a n`
returns `some data` on success (the bytes delivered) and `none` when the
transfer raises (OSError/IOError); `write a payload` returns `true` on
success and `false` when the transfer raises. -/
structure Device where
  read : Nat → Nat → Option (List Nat)
  write : Nat → List Nat → Bool

/-- Python slice `buffer[start:end]` for nonnegative indices: the elements
at positions `start ≤ i < end`, with out-of-range indices clamped. -/
def pySlice (buffer : List Nat) (start stop : Nat) : List Nat :=
  (buffer.take stop).drop start

/-- The copy loop `for i, byte in enumerate(data): buffer[start + i] = byte`:
returns `none` when an index falls outside the buffer (Python raises
IndexError there), otherwise the updated buffer. -/
def writeBytes : List Nat → Nat → List Nat → Option (List Nat)
  | buf, _, [] => some buf
  | buf, s, b :: rest =>
      if s < buf.length then writeBytes (buf.set s b) (s + 1) rest
      else none

/-- CP2112I2CBus.writeto (src/cp2112_i2c_bus.py lines 23-49): slices
`buffer[start:end]` (end defaulting to the buffer length) and passes the
slice to the device write, unconditionally. The `stop` argument of the
source is accepted and ignored, so it is omitted here. Returns the trace
of device calls and the outcome. -/
def writeto (dev : Device) (address : Nat) (buffer : List Nat)
    (start : Nat) (stopIdx : Option Nat) : List Transfer × Except String Unit :=
  let e := stopIdx.getD buffer.length
  let view := pySlice buffer start e
  if dev.write address view then
    ([Transfer.wr address view], Except.ok ())
  else
    ([Transfer.wr address view], Except.error "DeviceError")

/-- CP2112I2CBus.readfrom_into (src/cp2112_i2c_bus.py lines 51-73):
computes `length = end - start` (end defaulting to the buffer length); if
`length <= 0` returns at once; otherwise reads `length` bytes from the
device and copies them into the buffer starting at `start`. In Nat
arithmetic, `e - start = 0` exactly when the Python `end - start <= 0`.
Returns the trace of device calls and the resulting buffer. -/
def readfrom_into (dev : Device) (address : Nat) (buffer : List Nat)
    (start : Nat) (stopIdx : Option Nat) : List Transfer × Except String (List Nat) :=
  let e := stopIdx.getD buffer.length
  let length := e - start
  if length = 0 then
    ([], Except.ok buffer)
  else
    match dev.read address length with
    | none => ([Transfer.rd address length], Except.error "DeviceError")
    | some data =>
        match writeBytes buffer start data with
        | none => ([Transfer.rd address length], Except.error "IndexError")
        | some buffer2 => ([Transfer.rd address length], Except.ok buffer2)

/-- The read phase of CP2112I2CBus.writeto_then_readfrom
(src/cp2112_i2c_bus.py lines 120-128), written out separately from
readfrom_into because the source duplicates the logic rather than calling
readfrom_into. -/
def wtrfReadPhase (dev : Device) (address : Nat) (buffer_in : List Nat)
    (in_start : Nat) (in_end : Option Nat) : List Transfer × Except String (List Nat) :=
  let ie := in_end.getD buffer_in.length
  let in_length := ie - in_start
  if in_length = 0 then
    ([], Except.ok buffer_in)
  else
    match dev.read address in_length with
    | none => ([Transfer.rd address in_length], Except.error "DeviceError")
    | some data =>
        match writeBytes buffer_in in_start data with
        | none => ([Transfer.rd address in_length], Except.error "IndexError")
        | some buffer2 => ([Transfer.rd address in_length], Except.ok buffer2)

/-- CP2112I2CBus.writeto_then_readfrom (src/cp2112_i2c_bus.py lines
75-128): writes the output slice if and only if it is nonempty, then (if
the write did not raise) performs the read phase into the input slice.
The `stop` argument of the source is accepted and ignored. -/
def writeto_then_readfrom (dev : Device) (address : Nat)
    (buffer_out buffer_in : List Nat) (out_start : Nat) (out_end : Option Nat)
    (in_start : Nat) (in_end : Option Nat) : List Transfer × Except String (List Nat) :=
  let oe := out_end.getD buffer_out.length
  let out_view := pySlice buffer_out out_start oe
  if out_view.length ≠ 0 then
    if dev.write address out_view then
      let p := wtrfReadPhase dev address buffer_in in_start in_end
      (Transfer.wr address out_view :: p.1, p.2)
    else
      ([Transfer.wr address out_view], Except.error "DeviceError")
  else
    wtrfReadPhase dev address buffer_in in_start in_end

/-- The body of the scan loop (src/cp2112_i2c_bus.py lines 157-164): one
probe of the given address with a 1-byte read, appending the address to
the accumulated found list when the read does not raise. -/
def scanStep (dev : Device) (acc : List Transfer × List Nat) (addr : Nat) :
    List Transfer × List Nat :=
  match dev.read addr 1 with
  | some _ => (acc.1 ++ [Transfer.rd addr 1], acc.2 ++ [addr])
  | none => (acc.1 ++ [Transfer.rd addr 1], acc.2)

/-- CP2112I2CBus.scan (src/cp2112_i2c_bus.py lines 147-165): for each
address in `range(0x08, 0x78)` in ascending order, attempts a 1-byte read
and appends the address to the result when the read succeeds; a raising
read is treated as absence. Returns the trace of probes and the found
list. -/
def scan (dev : Device) : List Transfer × List Nat :=
  (List.range' 8 112).foldl (scanStep dev) ([], [])

/-- CP2112I2CBus.try_lock (src/cp2112_i2c_bus.py lines 130-138). -/
def try_lock : Bool := true

/-- CP2112I2CBus.unlock (src/cp2112_i2c_bus.py lines 140-145). -/
def unlock : Unit := ()

/-- A device whose transfers always succeed, reads returning zero bytes of
the requested length; used for concrete evaluations. -/
def devAlwaysOk : Device where
  read := fun _ n => some (List.replicate n 0)
  write := fun _ _ => true

example : (writeto devAlwaysOk 60 [] 0 none).1 = [Transfer.wr 60 []] := by decide
example : (readfrom_into devAlwaysOk 60 [] 0 none).1 = [] := by decide
example : readfrom_into devAlwaysOk 60 [5, 6, 7] 1 none =
    ([Transfer.rd 60 2], Except.ok [5, 0, 0]) := rfl

/-!
Status loop (src/oled_display.py). The drawing and bus push inside
display_info are opaque collaborators; what matters to the loop is only
whether that inner body raises, so it is modelled by a Boolean. The main
loop is driven by a list of per-iteration environment events: a normal
iteration carrying the freshly sampled values and whether the display
push inside display_info raises, an iteration whose body raises an
Exception reaching the retry handler, or the arrival of a
KeyboardInterrupt (external cancellation).
-/

/-- The unguarded body of display_info (src/oled_display.py lines
289-311): drawing plus the push `oled.image(image); oled.show()`, any
step of which may raise; `pushFails` abstracts whether some step raises. -/
def display_info_attempt (pushFails : Bool) : Except String Unit :=
  if pushFails then Except.error "display error" else Except.ok ()

/-- display_info (src/oled_display.py lines 287-313): runs the drawing
and push inside a try/except that catches every Exception and logs it, so
the call always returns normally to the caller. -/
def display_info (pushFails : Bool) : Except String Unit :=
  match display_info_attempt pushFails with
  | Except.ok () => Except.ok ()
  | Except.error _ => Except.ok ()

/-- The mutable state of the main loop (src/oled_display.py lines
336-342): the cached previously rendered values (None before the first
render) and the consecutive-error counter. -/
structure LoopState where
  previous_ip : Option String
  previous_status : Option String
  consecutive_errors : Nat
  deriving DecidableEq, Repr

/-- One environment event per loop iteration:
`ok ip status pushFails` is an iteration whose body runs to completion,
with the values sampled by get_local_ip/get_stream_status and whether the
display push inside display_info raises; `err` is an iteration whose body
raises an Exception that reaches the `except Exception` retry handler
(before any display side effect); `cancel blankFails` is the arrival of
KeyboardInterrupt, with `blankFails` telling whether the clearing
fill(0)/show() itself raises. -/
inductive Event
  | ok (ip status : String) (pushFails : Bool)
  | err
  | cancel (blankFails : Bool)
  deriving DecidableEq, Repr

/-- An observable display side effect of the loop: a call to display_info
with the given values, or the shutdown blank attempt fill(0)/show()
(recorded with whether it failed; a failed attempt is still an attempt). -/
inductive Effect
  | render (ip status : String)
  | blank (failed : Bool)
  deriving DecidableEq, Repr

/-- How a run of the loop ends: still running after the given events
(with the resulting state), process exit 0 (the KeyboardInterrupt path,
src/oled_display.py lines 376-384), or process exit 1 (the fatal path,
lines 385-387). -/
inductive LoopResult
  | running (s : LoopState)
  | exitSuccess
  | exitFatal
  deriving DecidableEq, Repr

/-- The main loop of main (src/oled_display.py lines 344-387), run over a
list of environment events. A completed iteration renders exactly when
the sampled pair differs from the cached pair (line 353); since
display_info returns normally even when the push fails, the success path
(update caches, reset the error counter) is then always taken. An
iteration whose body raises increments consecutive_errors and re-raises
once `consecutive_errors >= max_retries`, which lands in the outer
`except Exception` handler: exit 1 with no display blanking. A
KeyboardInterrupt lands in the `except KeyboardInterrupt` handler: one
blank attempt, then exit 0 whether or not the blanking raised. -/
def runLoop (max_retries : Nat) : LoopState → List Event → List Effect × LoopResult
  | s, [] => ([], LoopResult.running s)
  | s, Event.ok ip status pushFails :: rest =>
      if some ip ≠ s.previous_ip ∨ some status ≠ s.previous_status then
        match display_info pushFails with
        | Except.ok () =>
            let p := runLoop max_retries ⟨some ip, some status, 0⟩ rest
            (Effect.render ip status :: p.1, p.2)
        | Except.error _ =>
            let errs := s.consecutive_errors + 1
            if max_retries ≤ errs then ([Effect.render ip status], LoopResult.exitFatal)
            else
              let p := runLoop max_retries ⟨s.previous_ip, s.previous_status, errs⟩ rest
              (Effect.render ip status :: p.1, p.2)
      else
        runLoop max_retries s rest
  | s, Event.err :: rest =>
      let errs := s.consecutive_errors + 1
      if max_retries ≤ errs then ([], LoopResult.exitFatal)
      else runLoop max_retries ⟨s.previous_ip, s.previous_status, errs⟩ rest
  | _, Event.cancel blankFails :: _ =>
      ([Effect.blank blankFails], LoopResult.exitSuccess)

/-- The loop state at loop entry (src/oled_display.py lines 336-342). -/
def initState : LoopState := ⟨none, none, 0⟩

/-- Count of display_info invocations in an effect trace. -/
def countRenders (effs : List Effect) : Nat :=
  effs.countP fun e => match e with | Effect.render _ _ => true | _ => false

/-- Count of blank attempts in an effect trace. -/
def countBlanks (effs : List Effect) : Nat :=
  effs.countP fun e => match e with | Effect.blank _ => true | _ => false

example : runLoop 3 initState [Event.err, Event.err, Event.err] =
    ([], LoopResult.exitFatal) := by decide
example :
    runLoop 3 initState
      [Event.ok "192.168.1.5" "Streaming" false, Event.ok "192.168.1.5" "Streaming" false] =
    ([Effect.render "192.168.1.5" "Streaming"],
      LoopResult.running ⟨some "192.168.1.5", some "Streaming", 0⟩) := by
  decide

/-! Helper lemmas about the copy loop writeBytes. -/

theorem writeBytes_length (d : List Nat) : ∀ (buf : List Nat) (s : Nat) (buf2 : List Nat),
    writeBytes buf s d = some buf2 → buf2.length = buf.length := by
  induction d with
  | nil =>
      intro buf s buf2 h
      simp only [writeBytes, Option.some.injEq] at h
      rw [← h]
  | cons b rest ih =>
      intro buf s buf2 h
      simp only [writeBytes] at h
      split at h
      · have h2 := ih (buf.set s b) (s + 1) buf2 h
        simpa using h2
      · exact absurd h (by simp)

theorem writeBytes_isSome (d : List Nat) : ∀ (buf : List Nat) (s : Nat),
    s + d.length ≤ buf.length → ∃ buf2, writeBytes buf s d = some buf2 := by
  induction d with
  | nil => intro buf s _; exact ⟨buf, rfl⟩
  | cons b rest ih =>
      intro buf s h
      have hs : s < buf.length := by simp only [List.length_cons] at h; omega
      have h2 : (s + 1) + rest.length ≤ (buf.set s b).length := by
        simp only [List.length_set]
        simp only [List.length_cons] at h
        omega
      obtain ⟨buf2, hb⟩ := ih (buf.set s b) (s + 1) h2
      exact ⟨buf2, by simp only [writeBytes, if_pos hs]; exact hb⟩

theorem writeBytes_frame (d : List Nat) : ∀ (buf : List Nat) (s : Nat) (buf2 : List Nat) (i : Nat),
    writeBytes buf s d = some buf2 → (i < s ∨ s + d.length ≤ i) → buf2[i]? = buf[i]? := by
  induction d with
  | nil =>
      intro buf s buf2 i h _
      simp only [writeBytes, Option.some.injEq] at h
      rw [← h]
  | cons b rest ih =>
      intro buf s buf2 i h hi
      simp only [writeBytes] at h
      split at h
      · have hout : i < s + 1 ∨ (s + 1) + rest.length ≤ i := by
          simp only [List.length_cons] at hi
          omega
        have hne : s ≠ i := by
          simp only [List.length_cons] at hi
          omega
        rw [ih (buf.set s b) (s + 1) buf2 i h hout, List.getElem?_set_ne hne]
      · exact absurd h (by simp)

theorem writeBytes_content (d : List Nat) : ∀ (buf : List Nat) (s : Nat) (buf2 : List Nat) (i : Nat),
    writeBytes buf s d = some buf2 → i < d.length → buf2[(s + i)]? = d[i]? := by
  induction d with
  | nil => intro buf s buf2 i _ hi; simp at hi
  | cons b rest ih =>
      intro buf s buf2 i h hi
      simp only [writeBytes] at h
      split at h
      case isTrue hs =>
        cases i with
        | zero =>
            have hframe := writeBytes_frame rest (buf.set s b) (s + 1) buf2 s h
              (Or.inl (by omega))
            rw [Nat.add_zero, hframe, List.getElem?_set_self (by simpa using hs)]
            simp
        | succ j =>
            have h2 := ih (buf.set s b) (s + 1) buf2 j h
              (by simp only [List.length_cons] at hi; omega)
            rw [show s + (j + 1) = (s + 1) + j by omega, h2]
            simp
      case isFalse => exact absurd h (by simp)

/-! Helper lemmas about pySlice and scan. -/

theorem pySlice_length (buffer : List Nat) (start e : Nat) (h1 : start ≤ e)
    (h2 : e ≤ buffer.length) : (pySlice buffer start e).length = e - start := by
  simp only [pySlice, List.length_drop, List.length_take]
  omega

theorem pySlice_eq_nil (buffer : List Nat) (start e : Nat) (h : e ≤ start) :
    pySlice buffer start e = [] := by
  apply List.eq_nil_of_length_eq_zero
  simp only [pySlice, List.length_drop, List.length_take]
  omega

theorem scan_foldl (dev : Device) (l : List Nat) : ∀ (t : List Transfer) (r : List Nat),
    l.foldl (scanStep dev) (t, r) =
      (t ++ l.map (fun a => Transfer.rd a 1),
        r ++ l.filter (fun a => (dev.read a 1).isSome)) := by
  induction l with
  | nil => intro t r; simp
  | cons a l ih =>
      intro t r
      simp only [List.foldl_cons, List.map_cons, List.filter_cons]
      cases h : dev.read a 1 with
      | none => simp [scanStep, h, ih]
      | some d => simp [scanStep, h, ih]

theorem scan_eq (dev : Device) :
    scan dev = ((List.range' 8 112).map (fun a => Transfer.rd a 1),
      (List.range' 8 112).filter (fun a => (dev.read a 1).isSome)) := by
  simp [scan, scan_foldl]

/-! Helper lemmas about the status loop. -/

theorem display_info_eq_ok (pushFails : Bool) : display_info pushFails = Except.ok () := by
  cases pushFails <;> rfl

theorem runLoop_ok_changed (mr : Nat) (s : LoopState) (ip st : String) (pf : Bool)
    (rest : List Event) (h : some ip ≠ s.previous_ip ∨ some st ≠ s.previous_status) :
    runLoop mr s (Event.ok ip st pf :: rest) =
      (Effect.render ip st :: (runLoop mr ⟨some ip, some st, 0⟩ rest).1,
        (runLoop mr ⟨some ip, some st, 0⟩ rest).2) := by
  rw [runLoop, if_pos h, display_info_eq_ok]

theorem runLoop_ok_unchanged (mr : Nat) (s : LoopState) (ip st : String) (pf : Bool)
    (rest : List Event) (h1 : s.previous_ip = some ip) (h2 : s.previous_status = some st) :
    runLoop mr s (Event.ok ip st pf :: rest) = runLoop mr s rest := by
  rw [runLoop, if_neg]
  simp [h1, h2]

theorem runLoop_err_retry (mr : Nat) (s : LoopState) (rest : List Event)
    (h : s.consecutive_errors + 1 < mr) :
    runLoop mr s (Event.err :: rest) =
      runLoop mr ⟨s.previous_ip, s.previous_status, s.consecutive_errors + 1⟩ rest := by
  rw [runLoop, if_neg]
  omega

theorem runLoop_err_fatal (mr : Nat) (s : LoopState) (rest : List Event)
    (h : mr ≤ s.consecutive_errors + 1) :
    runLoop mr s (Event.err :: rest) = ([], LoopResult.exitFatal) := by
  rw [runLoop, if_pos h]

theorem runLoop_err_retry_fields (mr : Nat) (pip pst : Option String) (ce : Nat)
    (rest : List Event) (h : ce + 1 < mr) :
    runLoop mr ⟨pip, pst, ce⟩ (Event.err :: rest) =
      runLoop mr ⟨pip, pst, ce + 1⟩ rest := by
  rw [runLoop_err_retry mr ⟨pip, pst, ce⟩ rest h]

theorem runLoop_err_fatal_fields (mr : Nat) (pip pst : Option String) (ce : Nat)
    (rest : List Event) (h : mr ≤ ce + 1) :
    runLoop mr ⟨pip, pst, ce⟩ (Event.err :: rest) = ([], LoopResult.exitFatal) :=
  runLoop_err_fatal mr ⟨pip, pst, ce⟩ rest h

theorem runLoop_replicate_same (mr : Nat) (ip st : String) (pf : Bool) (c : Nat) :
    ∀ k, runLoop mr ⟨some ip, some st, c⟩ (List.replicate k (Event.ok ip st pf)) =
      ([], LoopResult.running ⟨some ip, some st, c⟩) := by
  intro k
  induction k with
  | zero => rfl
  | succ n ih =>
      rw [List.replicate_succ, runLoop_ok_unchanged mr _ ip st pf _ rfl rfl]
      exact ih

/-- Claim C3, counterexample: at start = end (buffer [], start 0, end
defaulting to the buffer length 0) writeto still issues a write
transaction on the bridge handle — the source calls device.write
unconditionally — refuting the claimed no-transfer behaviour for empty
ranges. -/
theorem c3_counterexample :
    (writeto devAlwaysOk 60 [] 0 none).1 = [Transfer.wr 60 []] ∧
      ¬ (writeto devAlwaysOk 60 [] 0 none).1 = [] := by decide

/-- Claim C3, amended: for 0 ≤ start ≤ end ≤ len(buffer), writeto always
issues exactly one write transaction to the address, whose payload is the
end - start bytes buffer[start:end] — also when start = end, where the
payload is empty rather than the transfer being skipped; the call
succeeds exactly when the bridge reports success for that transfer, and
an omitted end defaults to the buffer length. -/
theorem c3_write_exact_transaction (dev : Device) (address : Nat) (buffer : List Nat)
    (start e : Nat) (h1 : start ≤ e) (h2 : e ≤ buffer.length) :
    writeto dev address buffer start none =
        writeto dev address buffer start (some buffer.length) ∧
    (writeto dev address buffer start (some e)).1 =
        [Transfer.wr address (pySlice buffer start e)] ∧
    (pySlice buffer start e).length = e - start ∧
    ((writeto dev address buffer start (some e)).2 = Except.ok () ↔
        dev.write address (pySlice buffer start e) = true) := by
  refine ⟨rfl, ?_, pySlice_length buffer start e h1 h2, ?_⟩
  · simp only [writeto, Option.getD_some]
    split <;> rfl
  · simp only [writeto, Option.getD_some]
    split
    case isTrue h => simp [h]
    case isFalse h => simp [h]

/-- Claim C3, witness for the amended theorem at a concrete input. -/
theorem c3_witness :
    (1 : Nat) ≤ 2 ∧ 2 ≤ ([5, 6, 7] : List Nat).length ∧
    (writeto devAlwaysOk 60 [5, 6, 7] 1 (some 2)).1 = [Transfer.wr 60 [6]] := by
  refine ⟨by decide, by decide, ?_⟩
  have h := (c3_write_exact_transaction devAlwaysOk 60 [5, 6, 7] 1 2
    (by decide) (by decide)).2.1
  rw [h]
  decide

/-- Claim C4: readfrom_into computes length = end - start with end
defaulting to the buffer length; when the length is nonpositive it
performs no bus transfer and succeeds with the buffer unchanged;
otherwise it requests exactly length bytes from the address and, when the
device delivers exactly that many bytes, succeeds with a buffer of the
same length in which byte i of the received data sits at index start + i
(order preserved). -/
theorem c4_readfrom_into_exact (dev : Device) (address : Nat) (buffer : List Nat)
    (start e : Nat) (he : e ≤ buffer.length) :
    readfrom_into dev address buffer start none =
        readfrom_into dev address buffer start (some buffer.length) ∧
    (e ≤ start → readfrom_into dev address buffer start (some e) = ([], Except.ok buffer)) ∧
    (∀ data, start < e → dev.read address (e - start) = some data →
      data.length = e - start →
      (readfrom_into dev address buffer start (some e)).1 =
          [Transfer.rd address (e - start)] ∧
      ∃ buf2, (readfrom_into dev address buffer start (some e)).2 = Except.ok buf2 ∧
        buf2.length = buffer.length ∧
        ∀ i, i < data.length → buf2[(start + i)]? = data[i]?) := by
  refine ⟨rfl, ?_, ?_⟩
  · intro h
    simp only [readfrom_into, Option.getD_some]
    rw [if_pos (by omega)]
  · intro data hlt hread hlen
    have hne : ¬ (e - start = 0) := by omega
    obtain ⟨buf2, hb⟩ := writeBytes_isSome data buffer start (by omega)
    have hv1 : (readfrom_into dev address buffer start (some e)).1 =
        [Transfer.rd address (e - start)] := by
      simp only [readfrom_into, Option.getD_some, if_neg hne, hread, hb]
    have hv2 : (readfrom_into dev address buffer start (some e)).2 = Except.ok buf2 := by
      simp only [readfrom_into, Option.getD_some, if_neg hne, hread, hb]
    exact ⟨hv1, buf2, hv2, writeBytes_length data buffer start buf2 hb,
      fun i hi => writeBytes_content data buffer start buf2 i hb hi⟩

/-- Claim C4, witness at a concrete input. -/
theorem c4_witness :
    (3 : Nat) ≤ ([5, 6, 7] : List Nat).length ∧
    (readfrom_into devAlwaysOk 60 [5, 6, 7] 1 (some 3)).1 = [Transfer.rd 60 2] := by
  refine ⟨by decide, ?_⟩
  exact ((c4_readfrom_into_exact devAlwaysOk 60 [5, 6, 7] 1 3 (by decide)).2.2
    [0, 0] (by decide) (by decide) (by decide)).1

/-- Claim C9, counterexample: at start = end = 1 on buffer [5], writeto
still issues a (zero-length) write transaction on the bridge handle,
while readfrom_into indeed performs none, refuting the claimed joint
no-transfer behaviour at empty ranges. -/
theorem c9_counterexample :
    ¬ (writeto devAlwaysOk 61 [5] 1 none).1 = [] ∧
    readfrom_into devAlwaysOk 61 [5] 1 none = ([], Except.ok [5]) := by
  refine ⟨by decide, rfl⟩

/-- Claim C9, amended: for 0 ≤ start ≤ end ≤ len(buffer), a successful
readfrom_into leaves every byte outside [start, end) unchanged and keeps
the buffer length (given a device that delivers the requested number of
bytes), and at start = end it performs no transfer and succeeds; writeto
behaves identically on any two buffers agreeing on buffer[start:end], so
its transmitted payload depends only on those bytes, but at start = end
it issues a zero-length write transaction rather than none. -/
theorem c9_frame_and_payload (dev : Device) (address : Nat) (buffer bufferB : List Nat)
    (start e : Nat) (h1 : start ≤ e) (h2 : e ≤ buffer.length)
    (hdev : ∀ n d, dev.read address n = some d → d.length = n) :
    (∀ buf2, (readfrom_into dev address buffer start (some e)).2 = Except.ok buf2 →
      buf2.length = buffer.length ∧
        ∀ i, i < start ∨ e ≤ i → buf2[i]? = buffer[i]?) ∧
    (start = e → readfrom_into dev address buffer start (some e) = ([], Except.ok buffer)) ∧
    (pySlice bufferB start e = pySlice buffer start e →
      writeto dev address bufferB start (some e) = writeto dev address buffer start (some e)) ∧
    (start = e → (writeto dev address buffer start (some e)).1 = [Transfer.wr address []]) := by
  refine ⟨?_, ?_, ?_, ?_⟩
  · intro buf2 hok
    by_cases hlen : e - start = 0
    · have hv : (readfrom_into dev address buffer start (some e)).2 = Except.ok buffer := by
        simp only [readfrom_into, Option.getD_some, if_pos hlen]
      rw [hv] at hok
      simp only [Except.ok.injEq] at hok
      subst hok
      exact ⟨rfl, fun i _ => rfl⟩
    · cases hread : dev.read address (e - start) with
      | none =>
          have hv : (readfrom_into dev address buffer start (some e)).2 =
              Except.error "DeviceError" := by
            simp only [readfrom_into, Option.getD_some, if_neg hlen, hread]
          rw [hv] at hok
          simp at hok
      | some data =>
          cases hwb : writeBytes buffer start data with
          | none =>
              have hv : (readfrom_into dev address buffer start (some e)).2 =
                  Except.error "IndexError" := by
                simp only [readfrom_into, Option.getD_some, if_neg hlen, hread, hwb]
              rw [hv] at hok
              simp at hok
          | some b2 =>
              have hv : (readfrom_into dev address buffer start (some e)).2 =
                  Except.ok b2 := by
                simp only [readfrom_into, Option.getD_some, if_neg hlen, hread, hwb]
              rw [hv] at hok
              simp only [Except.ok.injEq] at hok
              subst hok
              have hdlen : data.length = e - start := hdev (e - start) data hread
              refine ⟨writeBytes_length data buffer start b2 hwb, ?_⟩
              intro i hi
              exact writeBytes_frame data buffer start b2 i hwb (by omega)
  · intro h
    simp only [readfrom_into, Option.getD_some]
    rw [if_pos (by omega)]
  · intro hsl
    simp only [writeto, Option.getD_some, hsl]
  · intro h
    have hv : pySlice buffer start e = [] := pySlice_eq_nil buffer start e (by omega)
    simp only [writeto, Option.getD_some, hv]
    split <;> rfl

/-- Claim C9, witness for the amended theorem at a concrete input. -/
theorem c9_witness :
    (1 : Nat) ≤ 3 ∧ 3 ≤ ([5, 6, 7] : List Nat).length ∧
    writeto devAlwaysOk 61 [9, 6, 7] 1 (some 3) =
      writeto devAlwaysOk 61 [5, 6, 7] 1 (some 3) := by
  refine ⟨by decide, by decide, ?_⟩
  exact (c9_frame_and_payload devAlwaysOk 61 [5, 6, 7] [9, 6, 7] 1 3 (by decide) (by decide)
    (fun n d h => by injection h with h2; rw [← h2]; simp)).2.2.1 (by decide)

/-- The read phase of writeto_then_readfrom is the same computation as
readfrom_into: the source duplicates the logic verbatim. -/
theorem wtrfReadPhase_eq_readfrom_into (dev : Device) (address : Nat) (b : List Nat)
    (s : Nat) (e : Option Nat) :
    wtrfReadPhase dev address b s e = readfrom_into dev address b s e := rfl

/-- Claim C5, counterexample: with both the output and the input range
empty (empty buffers, full default ranges), writeto_then_readfrom
performs no bus transfer at all — its write phase is guarded by a
nonemptiness test — while writeto alone issues a zero-length write
transaction, so the claimed equivalence with write alone fails there. -/
theorem c5_counterexample :
    (writeto_then_readfrom devAlwaysOk 60 [] [] 0 none 0 none).1 = [] ∧
    (writeto devAlwaysOk 60 [] 0 none).1 = [Transfer.wr 60 []] ∧
    ¬ (writeto_then_readfrom devAlwaysOk 60 [] [] 0 none 0 none).1 =
        (writeto devAlwaysOk 60 [] 0 none).1 := by
  decide

/-- Claim C5, amended: with an empty output range writeto_then_readfrom
is literally the same computation as readfrom_into on the input range;
with an empty input range and a nonempty output range (within bounds) it
issues the same bus transfers as writeto on the output range, leaves the
input buffer unmentioned, and succeeds exactly when writeto does. For an
empty input range together with an empty output range the equivalence
with writeto fails, because writeto issues a zero-length write
transaction while writeto_then_readfrom skips its guarded write phase. -/
theorem c5_phase_equivalence (dev : Device) (address : Nat)
    (buffer_out buffer_in : List Nat) (os : Nat) (oe : Option Nat)
    (istart : Nat) (ie : Option Nat) :
    (oe.getD buffer_out.length ≤ os →
      writeto_then_readfrom dev address buffer_out buffer_in os oe istart ie =
        readfrom_into dev address buffer_in istart ie) ∧
    (ie.getD buffer_in.length ≤ istart → os < oe.getD buffer_out.length →
      oe.getD buffer_out.length ≤ buffer_out.length →
      (writeto_then_readfrom dev address buffer_out buffer_in os oe istart ie).1 =
          (writeto dev address buffer_out os oe).1 ∧
      ((writeto_then_readfrom dev address buffer_out buffer_in os oe istart ie).2 =
            Except.ok buffer_in ↔
          (writeto dev address buffer_out os oe).2 = Except.ok ())) := by
  constructor
  · intro hout
    have hv : pySlice buffer_out os (oe.getD buffer_out.length) = [] :=
      pySlice_eq_nil buffer_out os _ hout
    simp only [writeto_then_readfrom, hv, List.length_nil, ne_eq, not_true_eq_false,
      if_false, wtrfReadPhase_eq_readfrom_into]
  · intro hin hlt hle
    have hv : (pySlice buffer_out os (oe.getD buffer_out.length)).length =
        oe.getD buffer_out.length - os :=
      pySlice_length buffer_out os _ (by omega) hle
    have hne : (pySlice buffer_out os (oe.getD buffer_out.length)).length ≠ 0 := by
      omega
    have hrp : wtrfReadPhase dev address buffer_in istart ie = ([], Except.ok buffer_in) := by
      simp only [wtrfReadPhase]
      rw [if_pos (by omega)]
    simp only [writeto_then_readfrom, writeto, if_pos hne, hrp]
    split
    · simp
    · simp

/-- Claim C5, witness for the amended theorem at concrete inputs:
an empty output range against readfrom_into, and an empty input range
with a nonempty output range against writeto. -/
theorem c5_witness :
    (writeto_then_readfrom devAlwaysOk 60 [1, 2] [7] 2 none 0 (some 0) =
        readfrom_into devAlwaysOk 60 [7] 0 (some 0)) ∧
    (writeto_then_readfrom devAlwaysOk 60 [1, 2] [7] 0 none 1 (some 1)).1 =
        (writeto devAlwaysOk 60 [1, 2] 0 none).1 := by
  constructor
  · exact (c5_phase_equivalence devAlwaysOk 60 [1, 2] [7] 2 none 0 (some 0)).1 (by decide)
  · exact ((c5_phase_equivalence devAlwaysOk 60 [1, 2] [7] 0 none 1 (some 1)).2
      (by decide) (by decide) (by decide)).1

/-- Claim C6: scan probes every address from 0x08 through 0x77 inclusive
in ascending order with a 1-byte read each (the probe trace is exactly
the ordered list of those reads), and the returned list contains an
address if and only if it lies in [0x08, 0x77] and its probe read
succeeded; the returned list is strictly ascending, hence duplicate-free. -/
theorem c6_scan_exact (dev : Device) :
    (scan dev).1 = (List.range' 8 112).map (fun a => Transfer.rd a 1) ∧
    (∀ a, a ∈ (scan dev).2 ↔ (8 ≤ a ∧ a ≤ 119) ∧ (dev.read a 1).isSome = true) ∧
    List.Pairwise (· < ·) (scan dev).2 := by
  rw [scan_eq]
  refine ⟨rfl, ?_, ?_⟩
  · intro a
    simp only [List.mem_filter, List.mem_range'_1, decide_eq_true_eq]
    constructor
    · rintro ⟨⟨ha, hb⟩, hp⟩
      exact ⟨⟨ha, by omega⟩, hp⟩
    · rintro ⟨⟨ha, hb⟩, hp⟩
      exact ⟨⟨ha, by omega⟩, hp⟩
  · exact List.Pairwise.filter _ (List.pairwise_lt_range' 8 112)

/-- Claim C1, counterexample: with max_retries = 3, three consecutive
iterations whose body raises drive the loop to the fatal exit, but the
effect trace of that run contains no blank attempt at all — the
fill(0)/show() clearing lives only in the KeyboardInterrupt handler, not
on the fatal `except Exception` path — refuting that the display-blank
routine is invoked exactly once before the fatal exit. -/
theorem c1_counterexample :
    runLoop 3 initState [Event.err, Event.err, Event.err] = ([], LoopResult.exitFatal) ∧
    ¬ countBlanks (runLoop 3 initState [Event.err, Event.err, Event.err]).1 = 1 := by
  decide

/-- Claim C1, amended: from any state with a zero error counter, three
consecutive failing iterations (max_retries = 3) make the loop transition
to fatal shutdown and the process exit with the fatal-failure outcome
(exit 1), with the display-blank routine invoked zero times — not once —
on that path. -/
theorem c1_fatal_no_blank (s : LoopState) (rest : List Event)
    (h : s.consecutive_errors = 0) :
    runLoop 3 s (Event.err :: Event.err :: Event.err :: rest) =
        ([], LoopResult.exitFatal) ∧
    countBlanks (runLoop 3 s (Event.err :: Event.err :: Event.err :: rest)).1 = 0 := by
  obtain ⟨pip, pst, ce⟩ := s
  simp only [LoopState.consecutive_errors] at h
  subst h
  have h1 : runLoop 3 (⟨pip, pst, 0⟩ : LoopState)
      (Event.err :: Event.err :: Event.err :: rest) = ([], LoopResult.exitFatal) := by
    rw [runLoop_err_retry_fields 3 pip pst 0 _ (by omega),
      runLoop_err_retry_fields 3 pip pst 1 _ (by omega),
      runLoop_err_fatal_fields 3 pip pst 2 _ (by omega)]
  exact ⟨h1, by rw [h1]; rfl⟩

/-- Claim C1, witness for the amended theorem at the initial loop state. -/
theorem c1_witness :
    initState.consecutive_errors = 0 ∧
    runLoop 3 initState [Event.err, Event.err, Event.err] = ([], LoopResult.exitFatal) := by
  exact ⟨rfl, (c1_fatal_no_blank initState [] rfl).1⟩

/-- Claim C2: in a completed iteration the loop calls display_info if and
only if the freshly sampled pair differs from the cached last-rendered
pair (the iteration trace is exactly one render when they differ and is
empty otherwise), and a run of N ≥ 1 iterations with identical samples,
entered with a cache differing from that sample (as at loop start),
produces exactly one render — on the first iteration — and no other
display side effect. -/
theorem c2_render_iff_changed (mr : Nat) (s : LoopState) (ip st : String) (pf : Bool) :
    ((some ip ≠ s.previous_ip ∨ some st ≠ s.previous_status) →
      (runLoop mr s [Event.ok ip st pf]).1 = [Effect.render ip st]) ∧
    ((some ip = s.previous_ip ∧ some st = s.previous_status) →
      (runLoop mr s [Event.ok ip st pf]).1 = []) ∧
    (countRenders (runLoop mr s [Event.ok ip st pf]).1 = 1 ↔
      (some ip ≠ s.previous_ip ∨ some st ≠ s.previous_status)) ∧
    (∀ n, 1 ≤ n → (some ip ≠ s.previous_ip ∨ some st ≠ s.previous_status) →
      (runLoop mr s (List.replicate n (Event.ok ip st pf))).1 = [Effect.render ip st]) := by
  have hrun : ∀ n, 1 ≤ n → (some ip ≠ s.previous_ip ∨ some st ≠ s.previous_status) →
      (runLoop mr s (List.replicate n (Event.ok ip st pf))).1 = [Effect.render ip st] := by
    intro n hn h
    cases n with
    | zero => omega
    | succ m =>
        rw [List.replicate_succ, runLoop_ok_changed mr s ip st pf _ h,
          runLoop_replicate_same mr ip st pf 0 m]
  have hchanged : (some ip ≠ s.previous_ip ∨ some st ≠ s.previous_status) →
      (runLoop mr s [Event.ok ip st pf]).1 = [Effect.render ip st] := by
    intro h
    exact hrun 1 (by omega) h
  have hsame : (some ip = s.previous_ip ∧ some st = s.previous_status) →
      (runLoop mr s [Event.ok ip st pf]).1 = [] := by
    rintro ⟨h1, h2⟩
    rw [runLoop_ok_unchanged mr s ip st pf [] h1.symm h2.symm]
    rfl
  refine ⟨hchanged, hsame, ?_, hrun⟩
  by_cases h : some ip ≠ s.previous_ip ∨ some st ≠ s.previous_status
  · rw [hchanged h]
    simp [countRenders, h]
  · push_neg at h
    rw [hsame ⟨h.1, h.2⟩]
    simp only [countRenders, List.countP_nil]
    constructor
    · intro h0; omega
    · intro hc
      exact absurd (Or.elim hc (fun hx => hx h.1) (fun hx => hx h.2)) (by simp)

/-- Claim C2, witness: five identical samples from the initial state give
exactly one render with those values. -/
theorem c2_witness :
    (1 : Nat) ≤ 5 ∧ (some "192.168.1.5" ≠ initState.previous_ip ∨
        some "Streaming" ≠ initState.previous_status) ∧
    (runLoop 3 initState
        (List.replicate 5 (Event.ok "192.168.1.5" "Streaming" false))).1 =
      [Effect.render "192.168.1.5" "Streaming"] := by
  refine ⟨by omega, by simp [initState], ?_⟩
  exact (c2_render_iff_changed 3 initState "192.168.1.5" "Streaming" false).2.2.2 5
    (by omega) (by simp [initState])

/-- Claim C7: a successful render (which, the sampled pair having
changed, display_info performs while returning normally) resets
consecutive_errors to 0 while caching the rendered pair; a failing
iteration increments consecutive_errors by exactly one, and after that
failure the loop continues into the retry wait exactly when the
incremented counter is still below max_retries, escalating to the fatal
shutdown exactly when it has reached max_retries. -/
theorem c7_error_counter_invariant (mr : Nat) (s : LoopState) (ip st : String)
    (pf : Bool) (rest : List Event) :
    ((some ip ≠ s.previous_ip ∨ some st ≠ s.previous_status) →
      runLoop mr s (Event.ok ip st pf :: rest) =
        (Effect.render ip st :: (runLoop mr ⟨some ip, some st, 0⟩ rest).1,
          (runLoop mr ⟨some ip, some st, 0⟩ rest).2)) ∧
    (s.consecutive_errors + 1 < mr →
      runLoop mr s (Event.err :: rest) =
        runLoop mr ⟨s.previous_ip, s.previous_status, s.consecutive_errors + 1⟩ rest) ∧
    (mr ≤ s.consecutive_errors + 1 →
      runLoop mr s (Event.err :: rest) = ([], LoopResult.exitFatal)) :=
  ⟨fun h => runLoop_ok_changed mr s ip st pf rest h,
    fun h => runLoop_err_retry mr s rest h,
    fun h => runLoop_err_fatal mr s rest h⟩

/-- Claim C7, witness at concrete inputs: a render resets the counter, a
failure below the bound retries with the counter incremented to 1, and a
failure at the bound is fatal. -/
theorem c7_witness :
    (some "10.0.0.2" ≠ initState.previous_ip ∨
        some "Stopped" ≠ initState.previous_status) ∧
    runLoop 3 ⟨some "10.0.0.2", some "Stopped", 2⟩ [Event.err] =
        ([], LoopResult.exitFatal) ∧
    runLoop 3 initState [Event.err] =
        runLoop 3 ⟨none, none, 1⟩ [] := by
  refine ⟨by simp [initState], ?_, ?_⟩
  · exact (c7_error_counter_invariant 3 ⟨some "10.0.0.2", some "Stopped", 2⟩
      "10.0.0.2" "Stopped" false []).2.2 (by norm_num)
  · exact (c7_error_counter_invariant 3 initState "10.0.0.2" "Stopped" false []).2.1
      (by simp [initState])

/-- Claim C8: when the loop is cancelled externally (KeyboardInterrupt),
whatever the loop state and whether or not the clearing fill(0)/show()
itself fails, the display blank is attempted exactly once and the process
exits with the clean outcome (exit 0). -/
theorem c8_cancel_blank_clean (mr : Nat) (s : LoopState) (bf : Bool) (rest : List Event) :
    runLoop mr s (Event.cancel bf :: rest) =
        ([Effect.blank bf], LoopResult.exitSuccess) ∧
    countBlanks (runLoop mr s (Event.cancel bf :: rest)).1 = 1 := by
  constructor
  · rw [runLoop]
  · rw [runLoop]
    rfl

/-- Claim C10: display_info catches every error raised while drawing or
pushing to the display and returns normally, for either outcome of the
push; consequently an iteration whose sample changed takes the success
path even when the display push failed: the render is attempted, the
cached pair is updated to the sample, and consecutive_errors is reset to
0. -/
theorem c10_display_info_swallows (mr : Nat) (s : LoopState) (ip st : String)
    (rest : List Event)
    (h : some ip ≠ s.previous_ip ∨ some st ≠ s.previous_status) :
    (∀ pushFails, display_info pushFails = Except.ok ()) ∧
    runLoop mr s (Event.ok ip st true :: rest) =
      (Effect.render ip st :: (runLoop mr ⟨some ip, some st, 0⟩ rest).1,
        (runLoop mr ⟨some ip, some st, 0⟩ rest).2) :=
  ⟨display_info_eq_ok, runLoop_ok_changed mr s ip st true rest h⟩

/-- Claim C10, witness: a changed sample with a failing display push
still renders, caches the pair, and resets the counter. -/
theorem c10_witness :
    (some "10.0.0.9" ≠ initState.previous_ip ∨
        some "Unknown" ≠ initState.previous_status) ∧
    display_info true = Except.ok () ∧
    runLoop 3 initState [Event.ok "10.0.0.9" "Unknown" true] =
      ([Effect.render "10.0.0.9" "Unknown"],
        LoopResult.running ⟨some "10.0.0.9", some "Unknown", 0⟩) := by
  have hc := c10_display_info_swallows 3 initState "10.0.0.9" "Unknown" []
    (by simp [initState])
  exact ⟨by simp [initState], hc.1 true, by rw [hc.2]; rfl⟩

end X11Stream
